import Mathlib

/-!
Verification of the Dashboard-Server hierarchy/authorization/credit core.

The definitions below are a shallow embedding of the TypeScript source:
* `src/src/models/User.ts`            — the account document (`Account`)
* `src/src/services/user.services.ts` — `UserService` methods (hierarchy
  resolution, mutations, credit ledger) and the `authenticate` middleware
* `src/src/controllers/*`             — the HTTP controllers for
  transfer/adjust/ban/unban (amount validation, status codes)
* `src/src/middleware/logging.ts`     — `determineActionType` and the
  `logAction` finish handler

MongoDB collections are modelled as lists of documents; `find`/`findById`/
`findByIdAndUpdate`/`findByIdAndDelete` become list operations; a Mongo
`.sort(\x7bcreatedAt: -1\x7d)` and the JavaScript stable `Array.sort` on the
createdAt comparator are both modelled by the stable `List.insertionSort`
on the "createdAt descending" relation.  Thrown service errors (an `Error`
with an attached `status`) become `Except SvcError`.
-/

namespace Dashboard

/-- An account document (`User` model).  `role` is a string in the source
(schema enum: admin, super_distributor, distributor, retailer, user);
`parentId` and `createdBy` are optional ObjectId references, modelled as
`Option Nat`; `creditBalance` is a number (modelled as `Int`);
`createdAt` is the creation timestamp. -/
structure Account where
  id : Nat
  username : String
  role : String
  parentId : Option Nat
  createdBy : Option Nat
  creditBalance : Int
  isActive : Bool
  isBanned : Bool
  isOnline : Bool
  createdAt : Nat
deriving DecidableEq

/-- The users collection. -/
abbrev DB := List Account

/-- The authenticated request context `req.user` attached by the
`authenticate` middleware: `\x7b_id, userId, username, role, uniqueId\x7d`. -/
structure ReqUser where
  uid : Nat
  userId : Nat
  username : String
  role : String
  uniqueId : String
deriving DecidableEq

/-- A thrown service error: `new Error(message)` with `(error as any).status`. -/
structure SvcError where
  status : Nat
  message : String
deriving DecidableEq

/-- `User.findById(id)` — first document with the given id. -/
def findById (db : DB) (i : Nat) : Option Account :=
  db.find? (fun a => a.id == i)

/-- `User.findByIdAndUpdate(id, upd)` — apply `f` to the document(s) with the
given id (ids are unique in Mongo; on a well-formed db this touches one doc). -/
def updateById (db : DB) (i : Nat) (f : Account → Account) : DB :=
  db.map (fun a => if a.id == i then f a else a)

/-- `User.findByIdAndDelete(id)`. -/
def deleteById (db : DB) (i : Nat) : DB :=
  db.filter (fun a => !(a.id == i))

/-- The relation "createdAt descending": in the source, both the Mongo
`.sort(\x7bcreatedAt: -1\x7d)` and the JS comparator
`(a, b) => new Date(b.createdAt).getTime() - new Date(a.createdAt).getTime()`. -/
def createdDesc (a b : Account) : Prop :=
  b.createdAt ≤ a.createdAt

instance : DecidableRel createdDesc :=
  fun a b => Nat.decLe _ _

instance : IsTotal Account createdDesc :=
  ⟨fun a b => Nat.le_total b.createdAt a.createdAt⟩

instance : IsTrans Account createdDesc :=
  ⟨fun _ _ _ hab hbc => Nat.le_trans hbc hab⟩

/-- Stable sort by createdAt descending (JS `Array.sort` is stable per
ES2019; Mongo tie order is modelled as collection order). -/
def sortByCreatedAtDesc (l : List Account) : List Account :=
  l.insertionSort createdDesc

/-- The `$in` match on `createdBy`: `createdBy: \x7b$in: ids\x7d`. -/
def createdByIn (u : Account) (ids : List Nat) : Bool :=
  match u.createdBy with
  | some c => ids.contains c
  | none => false

/-- The spread `\x7b...user, isOnline: user.isOnline || false\x7d` applied to
every result row. -/
def withOnline (u : Account) : Account :=
  { u with isOnline := u.isOnline || false }

/-- `UserService.getUsersUnderSuperDistributor` (user.services.ts:843-913):
collect users created directly by the super distributor, users created by its
distributors, and users created by retailers reachable from it (directly or
via a distributor); combine and sort by createdAt descending. -/
def getUsersUnderSuperDistributor (db : DB) (superDistributorId : Nat) : List Account :=
  let distributors :=
    db.filter (fun u => u.createdBy == some superDistributorId && u.role == "distributor")
  let distributorIds := distributors.map (·.id)
  let directRetailers :=
    db.filter (fun u => u.createdBy == some superDistributorId && u.role == "retailer")
  let distributorRetailers :=
    if distributorIds.length > 0 then
      db.filter (fun u => createdByIn u distributorIds && u.role == "retailer")
    else []
  let allRetailerIds := (directRetailers ++ distributorRetailers).map (·.id)
  let directUsers :=
    sortByCreatedAtDesc
      (db.filter (fun u => u.createdBy == some superDistributorId && u.role == "user"))
  let distributorUsers :=
    if distributorIds.length > 0 then
      sortByCreatedAtDesc (db.filter (fun u => createdByIn u distributorIds && u.role == "user"))
    else []
  let retailerUsers :=
    if allRetailerIds.length > 0 then
      sortByCreatedAtDesc (db.filter (fun u => createdByIn u allRetailerIds && u.role == "user"))
    else []
  sortByCreatedAtDesc (((directUsers ++ distributorUsers) ++ retailerUsers).map withOnline)

/-- The distributor ids collected by `getUsersUnderSuperDistributor`
(the `distributorIds` intermediate). -/
def sdDistributorIds (db : DB) (sid : Nat) : List Nat :=
  (db.filter (fun u => u.createdBy == some sid && u.role == "distributor")).map Account.id

/-- The retailer ids collected by `getUsersUnderSuperDistributor` (the
`allRetailerIds` intermediate: direct retailers plus retailers created by
the super distributor's distributors). -/
def sdAllRetailerIds (db : DB) (sid : Nat) : List Nat :=
  ((db.filter (fun u => u.createdBy == some sid && u.role == "retailer")) ++
   (db.filter (fun u => createdByIn u (sdDistributorIds db sid) && u.role == "retailer"))).map
    Account.id

/-- The inline role check of `UserService.updateUser` (user.services.ts:1280-1308):
admin passes; super_distributor is denied on admin/super_distributor targets;
distributor passes only on retailer/user; retailer only on user; anything
else is denied. -/
def updateUserPermission (actorRole targetRole : String) : Bool :=
  if actorRole == "admin" then true
  else if actorRole == "super_distributor" then
    !(targetRole == "admin" || targetRole == "super_distributor")
  else if actorRole == "distributor" then
    targetRole == "retailer" || targetRole == "user"
  else if actorRole == "retailer" then
    targetRole == "user"
  else false

/-- The inline role check of `UserService.deleteUser` (identical chain). -/
def deleteUserPermission (actorRole targetRole : String) : Bool :=
  if actorRole == "admin" then true
  else if actorRole == "super_distributor" then
    !(targetRole == "admin" || targetRole == "super_distributor")
  else if actorRole == "distributor" then
    targetRole == "retailer" || targetRole == "user"
  else if actorRole == "retailer" then
    targetRole == "user"
  else false

/-- The inline role check of `UserService.transferCredit` (identical chain). -/
def transferCreditPermission (actorRole targetRole : String) : Bool :=
  if actorRole == "admin" then true
  else if actorRole == "super_distributor" then
    !(targetRole == "admin" || targetRole == "super_distributor")
  else if actorRole == "distributor" then
    targetRole == "retailer" || targetRole == "user"
  else if actorRole == "retailer" then
    targetRole == "user"
  else false

/-- The inline role check of `UserService.adjustCredit` (identical chain). -/
def adjustCreditPermission (actorRole targetRole : String) : Bool :=
  if actorRole == "admin" then true
  else if actorRole == "super_distributor" then
    !(targetRole == "admin" || targetRole == "super_distributor")
  else if actorRole == "distributor" then
    targetRole == "retailer" || targetRole == "user"
  else if actorRole == "retailer" then
    targetRole == "user"
  else false

/-- The inline role check of `UserService.banUser` (identical chain). -/
def banUserPermission (actorRole targetRole : String) : Bool :=
  if actorRole == "admin" then true
  else if actorRole == "super_distributor" then
    !(targetRole == "admin" || targetRole == "super_distributor")
  else if actorRole == "distributor" then
    targetRole == "retailer" || targetRole == "user"
  else if actorRole == "retailer" then
    targetRole == "user"
  else false

/-- The inline role check of `UserService.unbanUser` (identical chain). -/
def unbanUserPermission (actorRole targetRole : String) : Bool :=
  if actorRole == "admin" then true
  else if actorRole == "super_distributor" then
    !(targetRole == "admin" || targetRole == "super_distributor")
  else if actorRole == "distributor" then
    targetRole == "retailer" || targetRole == "user"
  else if actorRole == "retailer" then
    targetRole == "user"
  else false

/-- `UserService.updateUser` (user.services.ts:1271-1324).  The `$set`
payload is modelled as a function on the target document. -/
def updateUser (db : DB) (userId : Nat) (updates : Account → Account)
    (currentUser : ReqUser) : Except SvcError (DB × Account) :=
  match findById db userId with
  | none => .error ⟨404, "User not found"⟩
  | some targetUser =>
    if updateUserPermission currentUser.role targetUser.role then
      let db' := updateById db userId updates
      match findById db' userId with
      | none => .error ⟨404, "User not found"⟩
      | some updatedUser => .ok (db', updatedUser)
    else .error ⟨403, "Access denied"⟩

/-- `UserService.deleteUser` (user.services.ts:1326-1367). -/
def deleteUser (db : DB) (userId : Nat) (currentUser : ReqUser) :
    Except SvcError DB :=
  match findById db userId with
  | none => .error ⟨404, "User not found"⟩
  | some targetUser =>
    if deleteUserPermission currentUser.role targetUser.role then
      .ok (deleteById db userId)
    else .error ⟨403, "Access denied"⟩

/-- `UserService.transferCredit` (user.services.ts:1369-1432).  Target
existence, then actor existence, then the balance check, then the role
chain, then debit the actor and credit the target with two independent
`$inc` updates.  (The source returns `updatedUser!`; the impossible `none` branch
after the update is mapped to the pre-update target.) -/
def transferCredit (db : DB) (userId : Nat) (amount : Int)
    (currentUser : ReqUser) : Except SvcError (DB × Account) :=
  match findById db userId with
  | none => .error ⟨404, "User not found"⟩
  | some targetUser =>
    match findById db currentUser.uid with
    | none => .error ⟨404, "Current user not found"⟩
    | some currentUserDoc =>
      if currentUserDoc.creditBalance < amount then
        .error ⟨400, "Insufficient credit balance"⟩
      else if transferCreditPermission currentUser.role targetUser.role then
        let db1 := updateById db currentUser.uid
          (fun a => { a with creditBalance := a.creditBalance - amount })
        let db2 := updateById db1 userId
          (fun a => { a with creditBalance := a.creditBalance + amount })
        match findById db2 userId with
        | some updatedUser => .ok (db2, updatedUser)
        | none => .ok (db2, targetUser)
      else .error ⟨403, "Access denied"⟩

/-- `UserService.adjustCredit` (user.services.ts:1434-1481): target
existence, role chain, then a single `$inc` on the target — there is no
check on the sign of `amount` or on the resulting balance. -/
def adjustCredit (db : DB) (userId : Nat) (amount : Int)
    (currentUser : ReqUser) : Except SvcError (DB × Account) :=
  match findById db userId with
  | none => .error ⟨404, "User not found"⟩
  | some targetUser =>
    if adjustCreditPermission currentUser.role targetUser.role then
      let db' := updateById db userId
        (fun a => { a with creditBalance := a.creditBalance + amount })
      match findById db' userId with
      | some updatedUser => .ok (db', updatedUser)
      | none => .ok (db', targetUser)
    else .error ⟨403, "Access denied"⟩

/-- The `$set` payload of `banUser`. -/
def banSet (a : Account) : Account :=
  { a with isBanned := true, isActive := false, isOnline := false }

/-- The `$set` payload of `unbanUser`:
`\x7b isBanned: false, isActive: true \x7d`. -/
def unbanSet (a : Account) : Account :=
  { a with isBanned := false, isActive := true }

/-- `UserService.banUser` (user.services.ts:1483-1527). -/
def banUser (db : DB) (userId : Nat) (currentUser : ReqUser) :
    Except SvcError (DB × Account) :=
  match findById db userId with
  | none => .error ⟨404, "User not found"⟩
  | some targetUser =>
    if banUserPermission currentUser.role targetUser.role then
      if targetUser.isBanned then .error ⟨400, "User already banned"⟩
      else
        let db' := updateById db userId banSet
        match findById db' userId with
        | some updatedUser => .ok (db', updatedUser)
        | none => .error ⟨500, "Failed to ban user"⟩
    else .error ⟨403, "Access denied"⟩

/-- `UserService.unbanUser` (user.services.ts:1528-1588): after the role
chain, a non-banned target is a 400 error; otherwise the update sets
`isBanned: false, isActive: true` (and nothing else). -/
def unbanUser (db : DB) (userId : Nat) (currentUser : ReqUser) :
    Except SvcError (DB × Account) :=
  match findById db userId with
  | none => .error ⟨404, "User not found"⟩
  | some targetUser =>
    if unbanUserPermission currentUser.role targetUser.role then
      if !targetUser.isBanned then .error ⟨400, "User is not banned"⟩
      else
        let db' := updateById db userId unbanSet
        match findById db' userId with
        | some updatedUser => .ok (db', updatedUser)
        | none => .error ⟨404, "User not found"⟩
    else .error ⟨403, "Access denied"⟩

/-- `UserService.getUserById` (user.services.ts:1233-1261): the single
account fetch.  A non-admin actor is denied unless the target's `parentId`
equals the actor's own id (`targetUser.parentId?.toString() !== currentUser._id`). -/
def getUserById (db : DB) (userId : Nat) (currentUser : ReqUser) :
    Except SvcError Account :=
  match findById db userId with
  | none => .error ⟨404, "User not found"⟩
  | some targetUser =>
    if !(currentUser.role == "admin") && !(targetUser.parentId == some currentUser.uid) then
      .error ⟨403, "Access denied"⟩
    else .ok targetUser

/-! ### Controllers (auth/user controller) -/

/-- A JSON body value, as far as the controllers inspect it. -/
inductive JsValue where
  | num (n : Int)
  | str (s : String)
  | boolean (b : Bool)
  | nullv
  | undef
deriving DecidableEq

/-- JavaScript truthiness for the values above (`0`, `""`, `false`, `null`
and `undefined` are falsy; `NaN`, also falsy, is outside this model). -/
def jsFalsy : JsValue → Bool
  | .num n => n == 0
  | .str s => s == ""
  | .boolean b => !b
  | .nullv => true
  | .undef => true

/-- `typeof amount === 'number'`. -/
def jsIsNumber : JsValue → Bool
  | .num _ => true
  | _ => false

/-- The amount validation of the `transferCredit` / `adjustCredit`
controllers: `if (!amount || typeof amount !== 'number')` → 400
"Invalid amount provided". -/
def amountCheckFails (amount : JsValue) : Bool :=
  !(!(jsFalsy amount)) || !(jsIsNumber amount)

/-- The `transferCredit` controller (POST /user/:id/transfer-credit):
401 without an authenticated actor, 400 on failed amount validation,
otherwise the service call; a thrown service error is mapped to its
status.  Returns the HTTP status and the resulting collection. -/
def transferCreditEndpoint (db : DB) (reqUser : Option ReqUser)
    (idParam : Nat) (amount : JsValue) : Nat × DB :=
  match reqUser with
  | none => (401, db)
  | some currentUser =>
    if amountCheckFails amount then (400, db)
    else
      match amount with
      | .num n =>
        match transferCredit db idParam n currentUser with
        | .ok (db', _) => (200, db')
        | .error e => (e.status, db)
      | _ => (400, db)

/-- The `adjustCredit` controller (POST /user/:id/adjust-credit), same
shape as the transfer controller. -/
def adjustCreditEndpoint (db : DB) (reqUser : Option ReqUser)
    (idParam : Nat) (amount : JsValue) : Nat × DB :=
  match reqUser with
  | none => (401, db)
  | some currentUser =>
    if amountCheckFails amount then (400, db)
    else
      match amount with
      | .num n =>
        match adjustCredit db idParam n currentUser with
        | .ok (db', _) => (200, db')
        | .error e => (e.status, db)
      | _ => (400, db)

/-- The `banUser` controller (POST /user/:id/ban): it first fetches the
target through `UserService.getUserById` (whose own access check runs),
then calls `UserService.banUser`. -/
def banUserEndpoint (db : DB) (reqUser : Option ReqUser) (targetId : Nat) :
    Nat × DB :=
  match reqUser with
  | none => (401, db)
  | some currentUser =>
    match getUserById db targetId currentUser with
    | .error e => (e.status, db)
    | .ok targetUser =>
      match banUser db targetUser.id currentUser with
      | .ok (db', _) => (200, db')
      | .error e => (e.status, db)

/-- The `unBanUser` controller (POST /user/:id/unban), same shape as the
ban controller. -/
def unbanUserEndpoint (db : DB) (reqUser : Option ReqUser) (targetId : Nat) :
    Nat × DB :=
  match reqUser with
  | none => (401, db)
  | some currentUser =>
    match getUserById db targetId currentUser with
    | .error e => (e.status, db)
    | .ok targetUser =>
      match unbanUser db targetUser.id currentUser with
      | .ok (db', _) => (200, db')
      | .error e => (e.status, db)

/-! ### Authentication middleware -/

/-- The decoded JWT payload (`verifyAccessToken` result). -/
structure JWTPayload where
  userId : Nat
  username : String
  role : String
  uniqueId : String
deriving DecidableEq

/-- Result of the `authenticate` middleware: either `req.user` is attached
or the request is rejected with a status and message. -/
inductive AuthResult where
  | success (user : ReqUser)
  | failure (status : Nat) (message : String)
deriving DecidableEq

/-- The `authenticate` middleware (middleware/auth.ts): reject a missing
token with 401; re-fetch the current account record by the token's
`userId` and reject a missing, inactive or banned account with 401;
otherwise attach `req.user` with `_id` from the record and `userId`,
`username`, `role`, `uniqueId` from the decoded token.  (Token-signature
failures, also 401, are outside this model: `cookieToken` is the
already-decoded payload when present.) -/
def authenticate (db : DB) (cookieToken : Option JWTPayload) : AuthResult :=
  match cookieToken with
  | none => .failure 401 "Access token is required"
  | some decoded =>
    match findById db decoded.userId with
    | none => .failure 401 "User not found"
    | some user =>
      if !user.isActive || user.isBanned then
        .failure 401 "Account is inactive or banned"
      else
        .success ⟨user.id, decoded.userId, decoded.username, decoded.role, decoded.uniqueId⟩

/-! ### Logging middleware -/

/-- `LogAction` (models/log.model.ts). -/
inductive LogAction where
  | CREATE_USER | UPDATE_USER | DELETE_USER | BAN_USER | UNBAN_USER
  | LOGIN | LOGOUT | FAILED_LOGIN | PASSWORD_CHANGE
  | CREDIT_TRANSFER | CREDIT_ADJUSTMENT | COMMISSION_PAYOUT
  | GAME_START | GAME_END | BET_PLACED | GAME_WIN | GAME_LOSS
  | SYSTEM_CONFIG_CHANGE | BULK_OPERATION
  | PROFILE_UPDATE | SETTINGS_CHANGE
deriving DecidableEq

/-- `String.prototype.startsWith`, on character lists. -/
def startsWithL : List Char → List Char → Bool
  | [], _ => true
  | _ :: _, [] => false
  | a :: as, b :: bs => a == b && startsWithL as bs

/-- `String.prototype.includes`, on character lists. -/
def containsSub (pat : List Char) : List Char → Bool
  | [] => pat.isEmpty
  | c :: t => startsWithL pat (c :: t) || containsSub pat t

/-- The regex `^\/user\/[^\/]+$`: "/user/" followed by one or more
non-slash characters. -/
def matchUserIdPath (path : List Char) : Bool :=
  startsWithL ("/user/".toList) path &&
    (let rest := path.drop 6
     !rest.isEmpty && !(rest.contains '/'))

/-- `determineActionType` (middleware/logging.ts:50-121), translated with
the same early-return structure: the auth-router branch, the user-router
branch, the games early return for GET, then the generic
profile/admin/bulk checks. -/
def determineActionType (method : String) (path origUrl : List Char) :
    Option LogAction :=
  let authPart : Option LogAction :=
    if startsWithL ("/api/auth/".toList) origUrl then
      if path == "/users".toList && method == "POST" then some .CREATE_USER
      else if containsSub ("/login".toList) path && method == "POST" then some .LOGIN
      else if containsSub ("/logout".toList) path && method == "POST" then some .LOGOUT
      else if containsSub ("/refresh".toList) path && method == "POST" then some .LOGIN
      else if containsSub ("/change-password".toList) path && method == "POST" then
        some .PASSWORD_CHANGE
      else none
    else none
  match authPart with
  | some a => some a
  | none =>
    let usersPart : Option LogAction :=
      if startsWithL ("/api/users/".toList) origUrl then
        if matchUserIdPath path && method == "PUT" then some .UPDATE_USER
        else if matchUserIdPath path && method == "DELETE" then some .DELETE_USER
        else if containsSub ("/ban".toList) path && method == "POST" then some .BAN_USER
        else if containsSub ("/unban".toList) path && method == "POST" then some .UNBAN_USER
        else if containsSub ("/transfer-credit".toList) path && method == "POST" then
          some .CREDIT_TRANSFER
        else if containsSub ("/adjust-credit".toList) path && method == "POST" then
          some .CREDIT_ADJUSTMENT
        else none
      else none
    match usersPart with
    | some a => some a
    | none =>
      if startsWithL ("/api/games/".toList) origUrl && method == "GET" then none
      else if containsSub ("/profile".toList) path && method == "PUT" then
        some .PROFILE_UPDATE
      else if containsSub ("/admin".toList) path &&
          (method == "POST" || method == "PUT" || method == "DELETE") then
        some .SYSTEM_CONFIG_CHANGE
      else if containsSub ("/bulk".toList) path &&
          (method == "POST" || method == "PUT" || method == "DELETE") then
        some .BULK_OPERATION
      else none

/-- An audit log entry as written by `LogService.createLog` via the
`logAction` middleware (fields relevant to the audit claims). -/
structure LogEntry where
  userId : Nat
  action : LogAction
  status : String
  resourceId : Option (List Char)
deriving DecidableEq

/-- The `res.on('finish')` handler of `logAction`
(middleware/logging.ts:246-294): skip when unauthenticated or when
`determineActionType` yields no action; otherwise append exactly one
entry whose status is SUCCESS for 2xx/3xx responses and whose
`resourceId` is `req.params.userId || req.params.id || req.params.sessionId`. -/
def logFinish (reqUser : Option ReqUser) (method : String)
    (path origUrl : List Char)
    (paramUserId paramId paramSessionId : Option (List Char))
    (statusCode : Nat) (logs : List LogEntry) : List LogEntry :=
  match reqUser with
  | none => logs
  | some u =>
    match determineActionType method path origUrl with
    | none => logs
    | some action =>
      let status := if 200 ≤ statusCode ∧ statusCode < 400 then "SUCCESS" else "FAILED"
      let resourceId := (paramUserId.orElse fun _ => (paramId.orElse fun _ => paramSessionId))
      logs ++ [⟨u.uid, action, status, resourceId⟩]

/-- The `req.path` of POST /api/users/user/:id/transfer-credit as seen by
the user router: "/user/" ++ id ++ "/transfer-credit". -/
def transferPath (idChars : List Char) : List Char :=
  "/user/".toList ++ idChars ++ "/transfer-credit".toList

/-- The corresponding `req.originalUrl`, including the /api/users mount. -/
def transferUrl (idChars : List Char) : List Char :=
  "/api/users/user/".toList ++ idChars ++ "/transfer-credit".toList

/-! ### Definitions written from the specification (for comparison) -/

/-- The authorization rule table of spec §4.2, as the claim states it:
admin may target any role; super_distributor may target
distributor/retailer/user; distributor may target retailer/user; retailer
may target user; any other actor role is denied. -/
def specRoleTable (actorRole targetRole : String) : Bool :=
  if actorRole == "admin" then true
  else if actorRole == "super_distributor" then
    targetRole == "distributor" || targetRole == "retailer" || targetRole == "user"
  else if actorRole == "distributor" then
    targetRole == "retailer" || targetRole == "user"
  else if actorRole == "retailer" then
    targetRole == "user"
  else false

/-- The roles admitted by the User schema enum. -/
def validRoles : List String :=
  ["admin", "super_distributor", "distributor", "retailer", "user"]

/-- The ordering the claim C5 asserts for hierarchy listings: createdAt
descending, ties broken by ascending id. -/
def claimedOrder (a b : Account) : Prop :=
  b.createdAt < a.createdAt ∨ (a.createdAt = b.createdAt ∧ a.id ≤ b.id)

instance : DecidableRel claimedOrder := fun a b => by
  unfold claimedOrder; infer_instance

/-! ### Credit-call sequences (for the balance invariant claim) -/

/-- One validated credit operation, as the claim quantifies over them. -/
inductive CreditCall where
  | adjust (targetId : Nat) (amount : Int) (actor : ReqUser)
  | transfer (targetId : Nat) (amount : Int) (actor : ReqUser)

/-- Run one call against the store; a thrown error leaves the store
unchanged (the services throw before writing). -/
def runCall (db : DB) : CreditCall → DB
  | .adjust tid amt cu =>
    match adjustCredit db tid amt cu with
    | .ok (db', _) => db'
    | .error _ => db
  | .transfer tid amt cu =>
    match transferCredit db tid amt cu with
    | .ok (db', _) => db'
    | .error _ => db

/-- Run a sequence of credit calls. -/
def runCalls (db : DB) (calls : List CreditCall) : DB :=
  calls.foldl runCall db

/-- All balances in the store are non-negative. -/
def balancesNonneg (db : DB) : Prop :=
  ∀ a ∈ db, 0 ≤ a.creditBalance

/-- Amount discipline under which the invariant does hold: non-negative
adjust deltas and positive transfer amounts. -/
def amountPolicyOK : CreditCall → Prop
  | .adjust _ amt _ => 0 ≤ amt
  | .transfer _ amt _ => 0 < amt

/-! ## Helper lemmas -/

theorem findById_some_id {db : DB} {i : Nat} {a : Account}
    (h : findById db i = some a) : a.id = i := by
  have := List.find?_some h
  simpa using this

theorem findById_some_mem {db : DB} {i : Nat} {a : Account}
    (h : findById db i = some a) : a ∈ db :=
  List.mem_of_find?_eq_some h

theorem findById_updateById (db : DB) (i j : Nat) (f : Account → Account)
    (hf : ∀ a, (f a).id = a.id) :
    findById (updateById db i f) j =
      Option.map (fun a => if a.id == i then f a else a) (findById db j) := by
  unfold findById updateById
  rw [List.find?_map]
  have hp : ((fun a : Account => a.id == j) ∘ fun a => if a.id == i then f a else a)
      = fun a : Account => a.id == j := by
    funext a
    simp only [Function.comp_apply]
    split
    · rw [hf]
    · rfl
  rw [hp]

theorem unbanSet_id (a : Account) : (unbanSet a).id = a.id := rfl

theorem getUserById_denied {db : DB} {uid : Nat} {cu : ReqUser} {t : Account}
    (h : findById db uid = some t) (hna : cu.role ≠ "admin")
    (hnp : t.parentId ≠ some cu.uid) :
    getUserById db uid cu = .error ⟨403, "Access denied"⟩ := by
  have h1 : (cu.role == "admin") = false := by simp [hna]
  have h2 : (t.parentId == some cu.uid) = false := by simp [hnp]
  simp [getUserById, h, h1, h2]

theorem getUserById_allowed {db : DB} {uid : Nat} {cu : ReqUser} {t : Account}
    (h : findById db uid = some t)
    (hc : cu.role = "admin" ∨ t.parentId = some cu.uid) :
    getUserById db uid cu = .ok t := by
  rcases hc with hc | hc <;> simp [getUserById, h, hc]

theorem permission_chain_eq_table (a t : String) (ht : t ∈ validRoles) :
    updateUserPermission a t = specRoleTable a t := by
  simp only [validRoles, List.mem_cons, List.not_mem_nil, or_false] at ht
  rcases ht with rfl | rfl | rfl | rfl | rfl <;>
    (unfold updateUserPermission specRoleTable; split_ifs <;> decide)

theorem withOnline_eq (u : Account) : withOnline u = u := by
  cases u
  simp [withOnline]

theorem map_withOnline (l : List Account) : l.map withOnline = l := by
  have h : withOnline = id := funext withOnline_eq
  rw [h, List.map_id]

theorem createdByIn_nil (u : Account) : createdByIn u [] = false := by
  unfold createdByIn
  cases u.createdBy <;> rfl

theorem createdByIn_eq_true {u : Account} {ids : List Nat} :
    createdByIn u ids = true ↔ ∃ c, u.createdBy = some c ∧ c ∈ ids := by
  unfold createdByIn
  cases hc : u.createdBy <;> simp [hc, List.elem_iff]

theorem mem_sortByCreatedAtDesc {a : Account} {l : List Account} :
    a ∈ sortByCreatedAtDesc l ↔ a ∈ l := by
  simp [sortByCreatedAtDesc, List.mem_insertionSort]

theorem guard_filter (db : DB) (ids : List Nat) (role : String) :
    (if ids.length > 0 then
      db.filter (fun u => createdByIn u ids && u.role == role) else []) =
    db.filter (fun u => createdByIn u ids && u.role == role) := by
  split
  · rfl
  · rename_i hlen
    have hids : ids = [] := by
      cases ids with
      | nil => rfl
      | cons c cs => simp at hlen
    subst hids
    symm
    apply List.filter_eq_nil_iff.mpr
    intro a _
    simp [createdByIn_nil]

theorem guard_sort_filter (db : DB) (ids : List Nat) (role : String) :
    (if ids.length > 0 then
      sortByCreatedAtDesc (db.filter (fun u => createdByIn u ids && u.role == role))
     else []) =
    sortByCreatedAtDesc (db.filter (fun u => createdByIn u ids && u.role == role)) := by
  split
  · rfl
  · rename_i hlen
    have hids : ids = [] := by
      cases ids with
      | nil => rfl
      | cons c cs => simp at hlen
    subst hids
    have hnil : db.filter (fun u => createdByIn u ([] : List Nat) && u.role == role) = [] := by
      apply List.filter_eq_nil_iff.mpr
      intro a _
      simp [createdByIn_nil]
    rw [hnil]
    rfl

theorem getUsersUnder_canonical (db : DB) (sid : Nat) :
    getUsersUnderSuperDistributor db sid =
      sortByCreatedAtDesc
        ((sortByCreatedAtDesc
            (db.filter (fun u => u.createdBy == some sid && u.role == "user")) ++
          sortByCreatedAtDesc
            (db.filter (fun u => createdByIn u (sdDistributorIds db sid) && u.role == "user"))) ++
          sortByCreatedAtDesc
            (db.filter (fun u => createdByIn u (sdAllRetailerIds db sid) && u.role == "user"))) := by
  unfold getUsersUnderSuperDistributor sdAllRetailerIds sdDistributorIds
  simp only [guard_filter, guard_sort_filter, map_withOnline]

theorem perm_sortByCreatedAtDesc (l : List Account) :
    (sortByCreatedAtDesc l).Perm l :=
  List.perm_insertionSort createdDesc l

theorem of_mem_sdDistributorIds {db : DB} {sid c : Nat}
    (h : c ∈ sdDistributorIds db sid) :
    ∃ d ∈ db, d.id = c ∧ d.role = "distributor" ∧ d.createdBy = some sid := by
  unfold sdDistributorIds at h
  obtain ⟨d, hd, rfl⟩ := List.mem_map.mp h
  obtain ⟨hmem, hp⟩ := List.mem_filter.mp hd
  simp only [Bool.and_eq_true, beq_iff_eq] at hp
  exact ⟨d, hmem, rfl, hp.2, hp.1⟩

theorem of_mem_sdAllRetailerIds {db : DB} {sid c : Nat}
    (h : c ∈ sdAllRetailerIds db sid) :
    ∃ r ∈ db, r.id = c ∧ r.role = "retailer" := by
  unfold sdAllRetailerIds at h
  obtain ⟨r, hr, rfl⟩ := List.mem_map.mp h
  rcases List.mem_append.mp hr with hr' | hr'
  · obtain ⟨hmem, hp⟩ := List.mem_filter.mp hr'
    simp only [Bool.and_eq_true, beq_iff_eq] at hp
    exact ⟨r, hmem, rfl, hp.2⟩
  · obtain ⟨hmem, hp⟩ := List.mem_filter.mp hr'
    simp only [Bool.and_eq_true, beq_iff_eq] at hp
    exact ⟨r, hmem, rfl, hp.2⟩

theorem startsWithL_append_self : ∀ p rest : List Char,
    startsWithL p (p ++ rest) = true := by
  intro p rest
  induction p with
  | nil => rfl
  | cons c cs ih => simp [startsWithL, ih]

theorem containsSub_append_of (pat xs ys : List Char)
    (h : containsSub pat ys = true) : containsSub pat (xs ++ ys) = true := by
  induction xs with
  | nil => simpa using h
  | cons x t ih =>
    show (startsWithL pat (x :: (t ++ ys)) || containsSub pat (t ++ ys)) = true
    rw [ih]
    simp

theorem determineActionType_transfer (idChars : List Char)
    (hban : containsSub ("/ban".toList) (transferPath idChars) = false)
    (hunban : containsSub ("/unban".toList) (transferPath idChars) = false) :
    determineActionType "POST" (transferPath idChars) (transferUrl idChars) =
      some .CREDIT_TRANSFER := by
  have hauth : startsWithL ("/api/auth/".toList) (transferUrl idChars) = false := rfl
  have husers : startsWithL ("/api/users/".toList) (transferUrl idChars) = true := by
    show startsWithL ("/api/users/".toList)
      ("/api/users/user/".toList ++ idChars ++ "/transfer-credit".toList) = true
    rw [show ("/api/users/user/".toList : List Char) =
      "/api/users/".toList ++ "user/".toList from rfl]
    rw [List.append_assoc, List.append_assoc]
    exact startsWithL_append_self _ _
  have htc : containsSub ("/transfer-credit".toList) (transferPath idChars) = true := by
    show containsSub ("/transfer-credit".toList)
      ("/user/".toList ++ (idChars ++ "/transfer-credit".toList)) = true
    apply containsSub_append_of
    apply containsSub_append_of
    decide
  simp only [determineActionType, hauth, husers, htc, hban, hunban,
    show ("POST" == "PUT") = false from rfl,
    show ("POST" == "DELETE") = false from rfl,
    show ("POST" == "POST") = true from rfl,
    Bool.and_false, Bool.and_true, Bool.false_eq_true, if_false, if_true]

/-! ## Claim theorems -/

/-- Claim C1: the code contradicts the schema's own `creditBalance: min 0`
declaration — an adjust-credit request whose amount `-100` passes the
implemented controller validation and the admin authorization drives a
zero-balance account to the stored balance `-100 < 0`, because update
queries bypass the schema validator and neither controller nor service
checks the sign or the resulting balance. -/
theorem claim_C1_code_bug_eval :
    amountCheckFails (JsValue.num (-100)) = false ∧
    adjustCreditEndpoint
      [⟨1, "a", "admin", none, none, 0, true, false, false, 0⟩,
       ⟨2, "u", "user", some 1, some 1, 0, true, false, false, 0⟩]
      (some ⟨1, 1, "a", "admin", "ADM1"⟩) 2 (JsValue.num (-100)) =
      (200,
       [⟨1, "a", "admin", none, none, 0, true, false, false, 0⟩,
        ⟨2, "u", "user", some 1, some 1, -100, true, false, false, 0⟩]) ∧
    (-100 : Int) < 0 := by
  refine ⟨rfl, rfl, by decide⟩

/-- Claim C2 counterexample: the role table allows a super_distributor to
ban a user, yet the ban endpoint returns 403 for a user who is not a
direct child of the actor — the preliminary `getUserById` fetch consults
the target's `parentId`, so the authorization decision is not a function
of the role pair alone. -/
theorem claim_C2_counterexample :
    specRoleTable "super_distributor" "user" = true ∧
    banUserPermission "super_distributor" "user" = true ∧
    banUserEndpoint
      [⟨10, "sd", "super_distributor", none, none, 0, true, false, false, 0⟩,
       ⟨2, "u", "user", some 3, some 3, 0, true, false, false, 0⟩]
      (some ⟨10, 10, "sd", "super_distributor", "SD1"⟩) 2 =
      (403,
       [⟨10, "sd", "super_distributor", none, none, 0, true, false, false, 0⟩,
        ⟨2, "u", "user", some 3, some 3, 0, true, false, false, 0⟩]) := by
  refine ⟨rfl, rfl, rfl⟩

/-- Claim C2 (amended): for schema roles, the service-layer checks of all
six mutations (update, delete, transfer-credit, adjust-credit, ban,
unban) are one and the same total deterministic function of the pair
(actor role, target role), equal to the spec's role table, with default
deny for unrecognized actor roles and no subtree consultation; the
ban/unban endpoints, however, first run `getUserById`, which for a
non-admin actor additionally requires the target's `parentId` to equal
the actor's id, and deny with 403 otherwise. -/
theorem claim_C2_amended :
    (∀ a t, t ∈ validRoles →
      updateUserPermission a t = specRoleTable a t ∧
      deleteUserPermission a t = specRoleTable a t ∧
      transferCreditPermission a t = specRoleTable a t ∧
      adjustCreditPermission a t = specRoleTable a t ∧
      banUserPermission a t = specRoleTable a t ∧
      unbanUserPermission a t = specRoleTable a t) ∧
    (∀ (db : DB) (cu : ReqUser) (tid : Nat) (t : Account),
      findById db tid = some t → cu.role ≠ "admin" → t.parentId ≠ some cu.uid →
      banUserEndpoint db (some cu) tid = (403, db) ∧
      unbanUserEndpoint db (some cu) tid = (403, db)) := by
  constructor
  · intro a t ht
    have h := permission_chain_eq_table a t ht
    exact ⟨h, h, h, h, h, h⟩
  · intro db cu tid t h hna hnp
    have hd := getUserById_denied h hna hnp
    constructor
    · simp [banUserEndpoint, hd]
    · simp [unbanUserEndpoint, hd]

/-- Claim C2 witness: the retailer/user pair matches the table, and a
concrete non-admin, non-parent actor is denied by the ban and unban
endpoints. -/
theorem claim_C2_witness :
    (updateUserPermission "retailer" "user" = specRoleTable "retailer" "user" ∧
     deleteUserPermission "retailer" "user" = specRoleTable "retailer" "user" ∧
     transferCreditPermission "retailer" "user" = specRoleTable "retailer" "user" ∧
     adjustCreditPermission "retailer" "user" = specRoleTable "retailer" "user" ∧
     banUserPermission "retailer" "user" = specRoleTable "retailer" "user" ∧
     unbanUserPermission "retailer" "user" = specRoleTable "retailer" "user") ∧
    (banUserEndpoint [⟨2, "u", "user", some 3, some 3, 0, true, false, false, 0⟩]
      (some ⟨10, 10, "sd", "super_distributor", "SD1"⟩) 2 =
      (403, [⟨2, "u", "user", some 3, some 3, 0, true, false, false, 0⟩]) ∧
     unbanUserEndpoint [⟨2, "u", "user", some 3, some 3, 0, true, false, false, 0⟩]
      (some ⟨10, 10, "sd", "super_distributor", "SD1"⟩) 2 =
      (403, [⟨2, "u", "user", some 3, some 3, 0, true, false, false, 0⟩])) :=
  ⟨claim_C2_amended.1 "retailer" "user" (by simp [validRoles]),
   claim_C2_amended.2 [⟨2, "u", "user", some 3, some 3, 0, true, false, false, 0⟩]
     ⟨10, 10, "sd", "super_distributor", "SD1"⟩ 2
     ⟨2, "u", "user", some 3, some 3, 0, true, false, false, 0⟩ rfl
     (by decide) (by decide)⟩

/-- Claim C3 counterexample: the amount `-5` is a non-positive number, yet
it passes the controller's amount validation and the full transfer
endpoint completes with status 200, debiting the target by 5 — the claim
that validation fails for every non-positive amount is false. -/
theorem claim_C3_counterexample :
    amountCheckFails (JsValue.num (-5)) = false ∧
    transferCreditEndpoint
      [⟨1, "a", "admin", none, none, 100, true, false, false, 0⟩,
       ⟨2, "u", "user", some 1, some 1, 0, true, false, false, 0⟩]
      (some ⟨1, 1, "a", "admin", "ADM1"⟩) 2 (JsValue.num (-5)) =
      (200,
       [⟨1, "a", "admin", none, none, 105, true, false, false, 0⟩,
        ⟨2, "u", "user", some 1, some 1, -5, true, false, false, 0⟩]) := by
  constructor
  · rfl
  · rfl

/-- Claim C3 (amended): the controller's amount validation passes exactly
the nonzero numbers — non-numeric values, missing values and `0` are
rejected with 400 "Invalid amount provided", but negative numbers pass. -/
theorem claim_C3_amended (v : JsValue) :
    amountCheckFails v = false ↔ ∃ n : Int, v = JsValue.num n ∧ n ≠ 0 := by
  cases v <;> simp [amountCheckFails, jsFalsy, jsIsNumber]

/-- Claim C3 witness: the characterization instantiated at the concrete
amount 7. -/
theorem claim_C3_witness :
    amountCheckFails (JsValue.num 7) = false ↔
      ∃ n : Int, JsValue.num 7 = JsValue.num n ∧ n ≠ 0 :=
  claim_C3_amended (JsValue.num 7)

/-- Claim C6 counterexample: a retailer fetching their own profile through
`getUserById` is denied with 403 — self-access is not always allowed. -/
theorem claim_C6_counterexample :
    getUserById [⟨5, "r", "retailer", some 1, some 1, 0, true, false, false, 0⟩]
      5 ⟨5, 5, "r", "retailer", "R1"⟩ = .error ⟨403, "Access denied"⟩ := by
  rfl

/-- Claim C6 (amended): `getUserById` permits access exactly when the actor
is an admin or the target's `parentId` equals the actor's id; an actor
reading their own profile is therefore allowed only in those cases, and a
non-admin whose own `parentId` is not their own id is denied. -/
theorem claim_C6_amended (db : DB) (uid : Nat) (cu : ReqUser) (t : Account)
    (h : findById db uid = some t) :
    ((cu.role = "admin" ∨ t.parentId = some cu.uid) → getUserById db uid cu = .ok t) ∧
    (cu.role ≠ "admin" → t.parentId ≠ some cu.uid →
      getUserById db uid cu = .error ⟨403, "Access denied"⟩) := by
  constructor
  · intro hc
    rcases hc with hc | hc <;> simp [getUserById, h, hc]
  · intro hna hnp
    have h1 : (cu.role == "admin") = false := by simp [hna]
    have h2 : (t.parentId == some cu.uid) = false := by simp [hnp]
    simp [getUserById, h, h1, h2]

/-- Claim C6 witness: an admin fetching any account succeeds. -/
theorem claim_C6_witness :
    getUserById [⟨5, "r", "retailer", some 1, some 1, 0, true, false, false, 0⟩]
      5 ⟨9, 9, "boss", "admin", "ADM1"⟩ =
      .ok ⟨5, "r", "retailer", some 1, some 1, 0, true, false, false, 0⟩ :=
  (claim_C6_amended [⟨5, "r", "retailer", some 1, some 1, 0, true, false, false, 0⟩]
    5 ⟨9, 9, "boss", "admin", "ADM1"⟩
    ⟨5, "r", "retailer", some 1, some 1, 0, true, false, false, 0⟩ rfl).1 (Or.inl rfl)

/-- Claim C7 counterexample: the authenticate middleware attaches the role
claimed in the token, not the freshly fetched record's role — an active,
unbanned account whose current role is "user" but whose token claims
"admin" passes authentication with role "admin". -/
theorem claim_C7_counterexample :
    authenticate [⟨7, "u", "user", none, none, 0, true, false, false, 0⟩]
      (some ⟨7, "u", "admin", "X"⟩) = .success ⟨7, 7, "u", "admin", "X"⟩ ∧
    (findById [⟨7, "u", "user", none, none, 0, true, false, false, 0⟩] 7).map
      Account.role = some "user" := by
  constructor
  · rfl
  · rfl

/-- Claim C7 (amended): the gate re-fetches the current record, so a banned
or deactivated account is rejected with 401 on its next request; but on
success the attached role is the token's claimed role (`decoded.role`),
not the current record's role, so a demoted-but-active account keeps its
stale token role for authorization. -/
theorem claim_C7_amended (db : DB) (tok : JWTPayload) (user : Account)
    (h : findById db tok.userId = some user) :
    ((user.isActive = false ∨ user.isBanned = true) →
      authenticate db (some tok) = .failure 401 "Account is inactive or banned") ∧
    (user.isActive = true → user.isBanned = false →
      authenticate db (some tok) =
        .success ⟨user.id, tok.userId, tok.username, tok.role, tok.uniqueId⟩) := by
  constructor
  · intro hc
    rcases hc with hc | hc <;> simp [authenticate, h, hc]
  · intro hA hB
    simp [authenticate, h, hA, hB]

/-- Claim C7 witness: a banned account is rejected with 401 even though its
token is still valid. -/
theorem claim_C7_witness :
    authenticate [⟨7, "u", "user", none, none, 0, true, true, false, 0⟩]
      (some ⟨7, "u", "user", "X"⟩) = .failure 401 "Account is inactive or banned" :=
  (claim_C7_amended [⟨7, "u", "user", none, none, 0, true, true, false, 0⟩]
    ⟨7, "u", "user", "X"⟩ _ rfl).1 (Or.inr rfl)

/-- Claim C8: in every mutation path (update, delete, transfer-credit,
adjust-credit, ban, unban) a missing target yields the 404 "User not
found" error before any permission check runs — the error is the same for
every actor, authorized or not, and no mutation is performed. -/
theorem claim_C8_not_found_first (db : DB) (uid : Nat)
    (upd : Account → Account) (amtT amtA : Int) (cu : ReqUser)
    (h : findById db uid = none) :
    updateUser db uid upd cu = .error ⟨404, "User not found"⟩ ∧
    deleteUser db uid cu = .error ⟨404, "User not found"⟩ ∧
    transferCredit db uid amtT cu = .error ⟨404, "User not found"⟩ ∧
    adjustCredit db uid amtA cu = .error ⟨404, "User not found"⟩ ∧
    banUser db uid cu = .error ⟨404, "User not found"⟩ ∧
    unbanUser db uid cu = .error ⟨404, "User not found"⟩ := by
  refine ⟨?_, ?_, ?_, ?_, ?_, ?_⟩ <;>
    simp [updateUser, deleteUser, transferCredit, adjustCredit, banUser, unbanUser, h]

/-- Claim C8 witness: on an empty collection every mutation is a 404, even
for an actor role ("user") that always fails authorization. -/
theorem claim_C8_witness :
    updateUser [] 1 (fun a => a) ⟨9, 9, "x", "user", "U1"⟩ =
      .error ⟨404, "User not found"⟩ ∧
    deleteUser [] 1 ⟨9, 9, "x", "user", "U1"⟩ = .error ⟨404, "User not found"⟩ ∧
    transferCredit [] 1 5 ⟨9, 9, "x", "user", "U1"⟩ = .error ⟨404, "User not found"⟩ ∧
    adjustCredit [] 1 5 ⟨9, 9, "x", "user", "U1"⟩ = .error ⟨404, "User not found"⟩ ∧
    banUser [] 1 ⟨9, 9, "x", "user", "U1"⟩ = .error ⟨404, "User not found"⟩ ∧
    unbanUser [] 1 ⟨9, 9, "x", "user", "U1"⟩ = .error ⟨404, "User not found"⟩ :=
  claim_C8_not_found_first [] 1 (fun a => a) 5 5 ⟨9, 9, "x", "user", "U1"⟩ rfl

/-- Claim C4: descendant resolution is level-skipping — for a super
distributor id `sid`, `getUsersUnderSuperDistributor` contains every user
account created directly by `sid`, every user created by a distributor of
`sid`, and every user created by a retailer reachable from `sid` (created
directly by `sid` or by one of its distributors), including the three-hop
chain super_distributor → distributor → retailer → user. -/
theorem claim_C4_skip_level (db : DB) (sid : Nat) (u : Account)
    (hu : u ∈ db) (hrole : u.role = "user")
    (hreach :
      u.createdBy = some sid ∨
      (∃ d ∈ db, d.role = "distributor" ∧ d.createdBy = some sid ∧
        u.createdBy = some d.id) ∨
      (∃ r ∈ db, r.role = "retailer" ∧ u.createdBy = some r.id ∧
        (r.createdBy = some sid ∨
         ∃ d ∈ db, d.role = "distributor" ∧ d.createdBy = some sid ∧
           r.createdBy = some d.id))) :
    u ∈ getUsersUnderSuperDistributor db sid := by
  rw [getUsersUnder_canonical, mem_sortByCreatedAtDesc]
  rcases hreach with hc | ⟨d, hd, hdrole, hdcb, hucb⟩ | ⟨r, hr, hrrole, hucb, hrc⟩
  · apply List.mem_append_left
    apply List.mem_append_left
    rw [mem_sortByCreatedAtDesc, List.mem_filter]
    exact ⟨hu, by simp [hc, hrole]⟩
  · apply List.mem_append_left
    apply List.mem_append_right
    rw [mem_sortByCreatedAtDesc, List.mem_filter]
    refine ⟨hu, ?_⟩
    have hdid : d.id ∈ sdDistributorIds db sid := by
      unfold sdDistributorIds
      exact List.mem_map_of_mem _ (List.mem_filter.mpr ⟨hd, by simp [hdrole, hdcb]⟩)
    have hin : createdByIn u (sdDistributorIds db sid) = true :=
      createdByIn_eq_true.mpr ⟨d.id, hucb, hdid⟩
    simp [hin, hrole]
  · apply List.mem_append_right
    rw [mem_sortByCreatedAtDesc, List.mem_filter]
    refine ⟨hu, ?_⟩
    have hrid : r.id ∈ sdAllRetailerIds db sid := by
      unfold sdAllRetailerIds
      apply List.mem_map_of_mem
      rcases hrc with hrc | ⟨d, hd, hdrole, hdcb, hrcb⟩
      · exact List.mem_append_left _ (List.mem_filter.mpr ⟨hr, by simp [hrrole, hrc]⟩)
      · apply List.mem_append_right
        refine List.mem_filter.mpr ⟨hr, ?_⟩
        have hdid : d.id ∈ sdDistributorIds db sid := by
          unfold sdDistributorIds
          exact List.mem_map_of_mem _ (List.mem_filter.mpr ⟨hd, by simp [hdrole, hdcb]⟩)
        have hin : createdByIn r (sdDistributorIds db sid) = true :=
          createdByIn_eq_true.mpr ⟨d.id, hrcb, hdid⟩
        simp [hin, hrrole]
    have hin : createdByIn u (sdAllRetailerIds db sid) = true :=
      createdByIn_eq_true.mpr ⟨r.id, hucb, hrid⟩
    simp [hin, hrole]

/-- Claim C4 witness: the three-hop chain SD(1) → D(2) → R(3) → U(4) — the
user is listed under the super distributor. -/
theorem claim_C4_witness :
    (⟨4, "uu", "user", some 3, some 3, 0, true, false, false, 10⟩ : Account) ∈
      getUsersUnderSuperDistributor
        [⟨1, "sd", "super_distributor", none, none, 0, true, false, false, 40⟩,
         ⟨2, "d", "distributor", some 1, some 1, 0, true, false, false, 30⟩,
         ⟨3, "r", "retailer", some 2, some 2, 0, true, false, false, 20⟩,
         ⟨4, "uu", "user", some 3, some 3, 0, true, false, false, 10⟩] 1 :=
  claim_C4_skip_level _ 1 _ (by simp) rfl
    (Or.inr (Or.inr
      ⟨⟨3, "r", "retailer", some 2, some 2, 0, true, false, false, 20⟩, by simp, rfl, rfl,
        Or.inr ⟨⟨2, "d", "distributor", some 1, some 1, 0, true, false, false, 30⟩,
          by simp, rfl, rfl, rfl⟩⟩))

/-- Claim C5 counterexample: with a super distributor (id 1), a distributor
(id 4) and three users of equal `createdAt` (ids 20, 30 created by the
super distributor, id 10 created by the distributor), the listing comes
out in group order [20, 30, 10] — the tie between equal-createdAt rows is
not broken by id order (the order claimed by the spec does not hold). -/
theorem claim_C5_counterexample :
    (getUsersUnderSuperDistributor
      [⟨1, "sd", "super_distributor", none, none, 0, true, false, false, 500⟩,
       ⟨4, "d", "distributor", some 1, some 1, 0, true, false, false, 400⟩,
       ⟨20, "u20", "user", some 1, some 1, 0, true, false, false, 100⟩,
       ⟨30, "u30", "user", some 1, some 1, 0, true, false, false, 100⟩,
       ⟨10, "u10", "user", some 4, some 4, 0, true, false, false, 100⟩] 1).map
      Account.id = [20, 30, 10] ∧
    (getUsersUnderSuperDistributor
      [⟨1, "sd", "super_distributor", none, none, 0, true, false, false, 500⟩,
       ⟨4, "d", "distributor", some 1, some 1, 0, true, false, false, 400⟩,
       ⟨20, "u20", "user", some 1, some 1, 0, true, false, false, 100⟩,
       ⟨30, "u30", "user", some 1, some 1, 0, true, false, false, 100⟩,
       ⟨10, "u10", "user", some 4, some 4, 0, true, false, false, 100⟩] 1).map
      Account.createdAt = [100, 100, 100] ∧
    ¬ List.Sorted claimedOrder
      (getUsersUnderSuperDistributor
        [⟨1, "sd", "super_distributor", none, none, 0, true, false, false, 500⟩,
         ⟨4, "d", "distributor", some 1, some 1, 0, true, false, false, 400⟩,
         ⟨20, "u20", "user", some 1, some 1, 0, true, false, false, 100⟩,
         ⟨30, "u30", "user", some 1, some 1, 0, true, false, false, 100⟩,
         ⟨10, "u10", "user", some 4, some 4, 0, true, false, false, 100⟩] 1) := by
  refine ⟨by decide, by decide, by decide⟩

/-- Claim C5 (amended): when account ids are unique and the root id
belongs to a super_distributor account (as at the scoped endpoints), the
listing is duplicate-free by account id and sorted by createdAt
descending; equal-createdAt rows keep the group/collection order (direct
users, then distributor-created, then retailer-created users), not id
order.  Idempotence/determinism is immediate: the resolver is a pure
function of the store and the root id. -/
theorem claim_C5_amended (db : DB) (sid : Nat)
    (h1 : (db.map Account.id).Nodup)
    (h2 : ∀ a ∈ db, a.id = sid → a.role = "super_distributor") :
    ((getUsersUnderSuperDistributor db sid).map Account.id).Nodup ∧
    List.Sorted createdDesc (getUsersUnderSuperDistributor db sid) := by
  have hinj : ∀ x ∈ db, ∀ y ∈ db, x.id = y.id → x = y := fun x hx y hy hxy =>
    List.inj_on_of_nodup_map h1 hx hy hxy
  constructor
  · rw [getUsersUnder_canonical]
    have hperm :
        ((sortByCreatedAtDesc
            ((sortByCreatedAtDesc
              (db.filter (fun u => u.createdBy == some sid && u.role == "user")) ++
              sortByCreatedAtDesc
                (db.filter (fun u =>
                  createdByIn u (sdDistributorIds db sid) && u.role == "user"))) ++
              sortByCreatedAtDesc
                (db.filter (fun u =>
                  createdByIn u (sdAllRetailerIds db sid) && u.role == "user")))).map
          Account.id).Perm
          ((((db.filter (fun u => u.createdBy == some sid && u.role == "user")) ++
            (db.filter (fun u =>
              createdByIn u (sdDistributorIds db sid) && u.role == "user"))) ++
            (db.filter (fun u =>
              createdByIn u (sdAllRetailerIds db sid) && u.role == "user"))).map
            Account.id) := by
      apply List.Perm.map
      exact (perm_sortByCreatedAtDesc _).trans
        (((perm_sortByCreatedAtDesc _).append (perm_sortByCreatedAtDesc _)).append
          (perm_sortByCreatedAtDesc _))
    rw [hperm.nodup_iff]
    simp only [List.map_append]
    have memFilter : ∀ (p : Account → Bool) (i : Nat),
        i ∈ (db.filter p).map Account.id → ∃ a ∈ db, a.id = i ∧ p a = true := by
      intro p i hi
      obtain ⟨a, ha, rfl⟩ := List.mem_map.mp hi
      obtain ⟨hmem, hp⟩ := List.mem_filter.mp ha
      exact ⟨a, hmem, rfl, hp⟩
    have djs : ∀ p q : Account → Bool, (∀ a ∈ db, p a = true → q a = true → False) →
        ((db.filter p).map Account.id).Disjoint ((db.filter q).map Account.id) := by
      intro p q hinc i hip hiq
      obtain ⟨a, haDB, haId, hpa⟩ := memFilter _ i hip
      obtain ⟨b, hbDB, hbId, hpb⟩ := memFilter _ i hiq
      have hab : a = b := hinj a haDB b hbDB (haId.trans hbId.symm)
      subst hab
      exact hinc a haDB hpa hpb
    have hAB : ∀ a ∈ db, (a.createdBy == some sid && a.role == "user") = true →
        (createdByIn a (sdDistributorIds db sid) && a.role == "user") = true → False := by
      intro a haDB hpa hpb
      simp only [Bool.and_eq_true, beq_iff_eq] at hpa hpb
      obtain ⟨c, hcb, hcmem⟩ := createdByIn_eq_true.mp hpb.1
      rw [hpa.1] at hcb
      obtain ⟨d, hdDB, hdId, hdRole, _⟩ := of_mem_sdDistributorIds hcmem
      have hds : d.role = "super_distributor" :=
        h2 d hdDB (by rw [hdId]; exact (Option.some.inj hcb).symm)
      rw [hdRole] at hds
      exact absurd hds (by decide)
    have hAC : ∀ a ∈ db, (a.createdBy == some sid && a.role == "user") = true →
        (createdByIn a (sdAllRetailerIds db sid) && a.role == "user") = true → False := by
      intro a haDB hpa hpb
      simp only [Bool.and_eq_true, beq_iff_eq] at hpa hpb
      obtain ⟨c, hcb, hcmem⟩ := createdByIn_eq_true.mp hpb.1
      rw [hpa.1] at hcb
      obtain ⟨r, hrDB, hrId, hrRole⟩ := of_mem_sdAllRetailerIds hcmem
      have hrs : r.role = "super_distributor" :=
        h2 r hrDB (by rw [hrId]; exact (Option.some.inj hcb).symm)
      rw [hrRole] at hrs
      exact absurd hrs (by decide)
    have hBC : ∀ a ∈ db,
        (createdByIn a (sdDistributorIds db sid) && a.role == "user") = true →
        (createdByIn a (sdAllRetailerIds db sid) && a.role == "user") = true → False := by
      intro a haDB hpa hpb
      simp only [Bool.and_eq_true, beq_iff_eq] at hpa hpb
      obtain ⟨c, hcb, hcmem⟩ := createdByIn_eq_true.mp hpa.1
      obtain ⟨c', hcb', hcmem'⟩ := createdByIn_eq_true.mp hpb.1
      rw [hcb] at hcb'
      have hcc : c = c' := Option.some.inj hcb'
      subst hcc
      obtain ⟨d, hdDB, hdId, hdRole, _⟩ := of_mem_sdDistributorIds hcmem
      obtain ⟨r, hrDB, hrId, hrRole⟩ := of_mem_sdAllRetailerIds hcmem'
      have hdr : d = r := hinj d hdDB r hrDB (hdId.trans hrId.symm)
      rw [hdr, hrRole] at hdRole
      exact absurd hdRole (by decide)
    have ndup : ∀ p : Account → Bool, ((db.filter p).map Account.id).Nodup :=
      fun p => h1.sublist ((List.filter_sublist db).map Account.id)
    rw [List.nodup_append, List.nodup_append, List.disjoint_append_left]
    exact ⟨⟨ndup _, ndup _, djs _ _ hAB⟩, ndup _, djs _ _ hAC, djs _ _ hBC⟩
  · rw [getUsersUnder_canonical]
    exact List.sorted_insertionSort createdDesc _

/-- Claim C5 witness: a concrete well-formed store with a super
distributor root gives a duplicate-free, createdAt-descending listing. -/
theorem claim_C5_witness :
    ((getUsersUnderSuperDistributor
      [⟨1, "sd", "super_distributor", none, none, 0, true, false, false, 500⟩,
       ⟨2, "u", "user", some 1, some 1, 0, true, false, false, 100⟩] 1).map
      Account.id).Nodup ∧
    List.Sorted createdDesc
      (getUsersUnderSuperDistributor
        [⟨1, "sd", "super_distributor", none, none, 0, true, false, false, 500⟩,
         ⟨2, "u", "user", some 1, some 1, 0, true, false, false, 100⟩] 1) :=
  claim_C5_amended
    [⟨1, "sd", "super_distributor", none, none, 0, true, false, false, 500⟩,
     ⟨2, "u", "user", some 1, some 1, 0, true, false, false, 100⟩] 1
    (by decide) (by decide)

/-- Claim C9: a completed transfer-credit request (authenticated actor,
POST /api/users/user/:id/transfer-credit, success status) makes the
logging middleware append exactly one log entry, with action
CREDIT_TRANSFER, status SUCCESS, and resourceId equal to the target
account id taken from the request path.  (The id hypotheses rule out path
ids containing the substrings "/ban" or "/unban", which the earlier
branches of `determineActionType` would capture; Mongo ObjectIds are hex
strings and cannot contain them.) -/
theorem claim_C9_transfer_logged (idChars : List Char) (u : ReqUser)
    (logs : List LogEntry) (s : Nat)
    (hban : containsSub ("/ban".toList) (transferPath idChars) = false)
    (hunban : containsSub ("/unban".toList) (transferPath idChars) = false)
    (hs1 : 200 ≤ s) (hs2 : s < 400) :
    logFinish (some u) "POST" (transferPath idChars) (transferUrl idChars)
      none (some idChars) none s logs =
      logs ++ [⟨u.uid, .CREDIT_TRANSFER, "SUCCESS", some idChars⟩] := by
  simp only [logFinish, determineActionType_transfer idChars hban hunban]
  rw [if_pos ⟨hs1, hs2⟩]
  rfl

/-- Claim C9 witness: a concrete successful transfer request for target id
"abc" appends the single expected audit entry. -/
theorem claim_C9_witness :
    logFinish (some ⟨1, 1, "a", "admin", "ADM1"⟩) "POST"
      (transferPath ("abc".toList)) (transferUrl ("abc".toList))
      none (some ("abc".toList)) none 200 [] =
      [⟨1, .CREDIT_TRANSFER, "SUCCESS", some ("abc".toList)⟩] :=
  claim_C9_transfer_logged ("abc".toList) ⟨1, 1, "a", "admin", "ADM1"⟩ [] 200
    (by decide) (by decide) (by decide) (by decide)

/-- Claim C10: `unbanUser` on a banned target (with an authorized actor)
sets `isBanned := false` and `isActive := true` in one update, leaving
every other field and every other account unchanged; on a target that is
not banned it fails with 400 "User is not banned" and returns no updated
state. -/
theorem claim_C10_unban (db : DB) (uid : Nat) (cu : ReqUser) (t : Account)
    (h : findById db uid = some t)
    (hperm : unbanUserPermission cu.role t.role = true) :
    (t.isBanned = true →
      unbanUser db uid cu = .ok (updateById db uid unbanSet, unbanSet t)) ∧
    (t.isBanned = false →
      unbanUser db uid cu = .error ⟨400, "User is not banned"⟩) := by
  constructor
  · intro hb
    have hf : findById (updateById db uid unbanSet) uid =
        Option.map (fun a => if a.id == uid then unbanSet a else a) (findById db uid) :=
      findById_updateById db uid uid unbanSet unbanSet_id
    rw [h] at hf
    have hid : (t.id == uid) = true := by
      simp [findById_some_id h]
    simp only [Option.map_some', hid, if_true] at hf
    simp [unbanUser, h, hperm, hb, hf]
  · intro hb
    simp [unbanUser, h, hperm, hb]

/-- Claim C10 witness: unbanning a banned user restores it to the usable
state, touching only the two flags. -/
theorem claim_C10_witness :
    unbanUser [⟨2, "u", "user", some 1, some 1, 7, false, true, false, 3⟩]
      2 ⟨1, 1, "a", "admin", "ADM1"⟩ =
      .ok ([⟨2, "u", "user", some 1, some 1, 7, true, false, false, 3⟩],
        ⟨2, "u", "user", some 1, some 1, 7, true, false, false, 3⟩) :=
  (claim_C10_unban [⟨2, "u", "user", some 1, some 1, 7, false, true, false, 3⟩]
    2 ⟨1, 1, "a", "admin", "ADM1"⟩ _ rfl rfl).1 rfl

end Dashboard
